import Mathlib

/-!
# Joyvinco order module: order placement and order-lifecycle notifications

A shallow embedding of `src/controllers/order.controller.js` and
`src/services/email.service.js`.

Modelling conventions.

* The database behind the Prisma client is an explicit `Store` value that is
  passed in and returned.  Every Prisma call may throw; which calls throw is
  decided by an oracle (`Db.fault` for the order side, the `Notifier` record
  for the notification side), so theorems quantify over every behaviour of the
  collaborators.
* `prisma.$transaction` runs its callback on a working copy of the store and
  publishes the copy only when the callback returns and the commit succeeds.
* JavaScript numbers (`price`, `totalAmount`) are IEEE-754 binary64 values
  (`JsNumber`), with `+` and `*` rounding to nearest, ties to even.  The
  `quantity` column is an integer; it enters arithmetic as the number of that
  integer.
* Request body fields are `Option String`: `none` is an absent (undefined or
  null) field, `some ""` is an empty one.  Both are falsy in JavaScript.
  Body values of other JSON types are not modelled; `req.user` and `req.body`
  are always there (they are set by middleware in front of the handlers).
* Ids are strings, and the order status is an unconstrained string.
* Thrown `Error` objects are represented by their message.
* A dispatcher that is called without `await` is run to completion on the
  store as it is right after the call; the value of its promise is dropped by
  the handler.  What it did is recorded in the `Trace` of the outcome.
-/

namespace Joyvinco

/-! ## JavaScript numbers -/

/-- JavaScript number: an IEEE-754 binary64 value.  `fin neg m e` is the finite value
`(-1)^neg * m * 2^e`, kept in the form of the format: `m < 2^53`, `-1074 ≤ e ≤ 971`, and
`2^52 ≤ m` unless `e = -1074` (subnormal numbers and the two zeros). -/
inductive JsNumber where
  | nan
  | inf (neg : Bool)
  | fin (neg : Bool) (m : Nat) (e : Int)
deriving DecidableEq

namespace JsNumber

/-- Number of binary digits of `m`, by halving at most `fuel` times. -/
def bitLengthAux : Nat → Nat → Nat
  | 0, _ => 0
  | fuel + 1, m => if m = 0 then 0 else bitLengthAux fuel (m / 2) + 1

/-- Number of binary digits of `m` (0 for 0). -/
def bitLength (m : Nat) : Nat :=
  bitLengthAux m m

/-- The binary64 value nearest to `(-1)^neg * m * 2^e`, ties to the even significand
(the rounding of every JavaScript arithmetic operation); infinite on overflow. -/
def round (neg : Bool) (m : Nat) (e : Int) : JsNumber :=
  if m = 0 then .fin neg 0 (-1074)
  else
    let E : Int := max (e + (bitLength m : Int) - 53) (-1074)
    if E ≤ e then
      if E > 971 then .inf neg else .fin neg (m * 2 ^ (e - E).toNat) E
    else
      let shift : Nat := (E - e).toNat
      let q : Nat := m / 2 ^ shift
      let r : Nat := m % 2 ^ shift
      let half : Nat := 2 ^ (shift - 1)
      let q1 : Nat := if r > half ∨ (r = half ∧ q % 2 = 1) then q + 1 else q
      if q1 = 2 ^ 53 then
        if E + 1 > 971 then .inf neg else .fin neg (2 ^ 52) (E + 1)
      else
        if E > 971 then .inf neg else .fin neg q1 E

/-- The number literal `0`. -/
def zero : JsNumber :=
  .fin false 0 (-1074)

/-- The JavaScript number for an integer (exact up to `2^53` in absolute value). -/
def ofInt (n : Int) : JsNumber :=
  round (decide (n < 0)) n.natAbs 0

/-- JavaScript `a * b` on numbers. -/
def mul : JsNumber → JsNumber → JsNumber
  | .nan, _ => .nan
  | _, .nan => .nan
  | .inf s, .inf t => .inf (xor s t)
  | .inf s, .fin t n _ => if n = 0 then .nan else .inf (xor s t)
  | .fin s m _, .inf t => if m = 0 then .nan else .inf (xor s t)
  | .fin s m e, .fin t n f => round (xor s t) (m * n) (e + f)

/-- The integer `(-1)^neg * m`. -/
def signed (neg : Bool) (m : Nat) : Int :=
  if neg then -(m : Int) else (m : Int)

/-- JavaScript `a + b` on numbers. -/
def add : JsNumber → JsNumber → JsNumber
  | .nan, _ => .nan
  | _, .nan => .nan
  | .inf s, .inf t => if s = t then .inf s else .nan
  | .inf s, .fin _ _ _ => .inf s
  | .fin _ _ _, .inf t => .inf t
  | .fin s m e, .fin t n f =>
    let E : Int := min e f
    let c : Int := signed s (m * 2 ^ (e - E).toNat) + signed t (n * 2 ^ (f - E).toNat)
    if c = 0 then .fin (s && t) 0 (-1074)
    else round (decide (c < 0)) c.natAbs E

/-- The rational value of a finite number; `none` for NaN and the infinities. -/
def toRat? : JsNumber → Option ℚ
  | .fin neg m e => some ((if neg then -1 else 1) * (m : ℚ) * (2 : ℚ) ^ e)
  | _ => none

end JsNumber

/-! ## Data model -/

/-- Catalogue product, as loaded with a cart item. -/
structure Product where
  id : String
  price : JsNumber
deriving DecidableEq

/-- Row of the cart item table, with its `product` relation resolved. -/
structure CartItem where
  id : String
  cartId : String
  productId : String
  quantity : Int
  product : Product
deriving DecidableEq

/-- Row of the cart table. -/
structure CartRow where
  id : String
  userId : String
deriving DecidableEq

/-- Cart as returned by `prisma.cart.findUnique` with `include: { items: ... }`. -/
structure Cart where
  id : String
  userId : String
  items : List CartItem
deriving DecidableEq

/-- Row of the order table. -/
structure Order where
  id : String
  userId : String
  totalAmount : JsNumber
  shippingAddress : String
  contactPhone : String
  customerName : String
  paymentMethod : String
  status : String
  createdAt : Nat
deriving DecidableEq

/-- Row of the order item table (the columns written by `createMany`). -/
structure OrderItem where
  orderId : String
  productId : String
  quantity : Int
  price : JsNumber
deriving DecidableEq

/-- Row of the user table. -/
structure User where
  id : String
  email : String
  role : String
deriving DecidableEq

/-- Persistent state reachable through the Prisma client. -/
structure Store where
  users : List User
  carts : List CartRow
  cartItems : List CartItem
  orders : List Order
  orderItems : List OrderItem
deriving DecidableEq

/-! ## Collaborators -/

/-- Prisma operations issued by the order controller. -/
inductive DbOp where
  | cartFindUnique
  | orderCreate
  | orderItemCreateMany
  | cartItemDeleteMany
  | transactionCommit
  | orderUpdate
deriving DecidableEq

/-- Behaviour of the database for one handler run: which operation throws (and with
which message), and the values the database generates for a new order row. -/
structure Db where
  fault : DbOp → Option String
  newOrderId : String
  now : Nat

/-- Variables handed to `ejs.renderFile`. -/
structure RenderData where
  order : Order
  customer : User
  cartItems : Option (List CartItem)
  totalAmount : Option JsNumber
deriving DecidableEq

/-- Argument of `transporter.sendMail`. -/
structure Mail where
  mailFrom : String
  mailTo : String
  subject : String
  html : String
deriving DecidableEq

/-- Behaviour of the collaborators of the email service for one run: the process
environment, the user queries (which may throw), the template renderer and the
mail transport. -/
structure Notifier where
  emailUser : String
  cwd : String
  userFindUniqueFault : Option String
  userFindManyFault : Option String
  renderFile : String → RenderData → Except String String
  sendMail : Mail → Option String

/-- One `console.error` call: the label and the message of the logged error. -/
structure LogEntry where
  label : String
  message : String
deriving DecidableEq

/-- Call of a dispatcher of the email service. -/
inductive Dispatch where
  | newOrder (order : Order) (cartItems : List CartItem) (totalAmount : JsNumber)
  | shipping (order : Order)
  | delivery (order : Order)
  | cancellation (order : Order)
deriving DecidableEq

/-- Observable effects other than the store and the response: dispatcher calls,
`sendMail` attempts (in order, whether or not they succeed) and logged errors. -/
structure Trace where
  dispatched : List Dispatch
  mails : List Mail
  logs : List LogEntry
deriving DecidableEq

/-- JSON body of a response. -/
structure Body where
  success : Bool
  message : String
  order : Option Order
  data : Option Order
deriving DecidableEq

/-- Response produced by `res.status(code).json(body)`. -/
structure Response where
  status : Nat
  body : Body
deriving DecidableEq

/-- Result of running a handler. -/
structure Outcome where
  response : Response
  store : Store
  trace : Trace
deriving DecidableEq

/-- Request seen by `createOrder`: the authenticated user id and the four body fields. -/
structure CreateOrderRequest where
  userId : String
  shippingAddress : Option String
  contactPhone : Option String
  fullName : Option String
  paymentMethod : Option String
deriving DecidableEq

/-- Request seen by `updateOrderStatus`: the route parameter and the body field. -/
structure UpdateStatusRequest where
  id : String
  status : Option String
deriving DecidableEq

/-! ## Email service -/

/-- JavaScript `s.slice(-6)`: the last six characters of `s` (all of it when shorter).
Ids are made of ASCII characters, for which characters and UTF-16 units coincide. -/
def sliceLast6 (s : String) : String :=
  String.mk (s.data.drop (s.data.length - 6))

/-- Node `path.resolve(cwd, rel)` for an absolute, normalised `cwd` other than the root
and a relative `rel`. -/
def pathResolve (cwd rel : String) : String :=
  cwd ++ "/" ++ rel

/-- The sender header built from `process.env.EMAIL_USER`. -/
def fromHeader (nf : Notifier) : String :=
  "\"Joyvinco\" <" ++ nf.emailUser ++ ">"

/-- Query `prisma.user.findUnique({ where: { id } })`. -/
def userFindUnique (nf : Notifier) (s : Store) (id : String) : Except String (Option User) :=
  match nf.userFindUniqueFault with
  | some e => .error e
  | none => .ok (s.users.find? (fun u => decide (u.id = id)))

/-- Query `prisma.user.findMany({ where: { role: "ADMIN" } })`. -/
def userFindManyAdmins (nf : Notifier) (s : Store) : Except String (List User) :=
  match nf.userFindManyFault with
  | some e => .error e
  | none => .ok (s.users.filter (fun u => decide (u.role = "ADMIN")))

/-- Customer confirmation message of `sendNewOrderEmails`. -/
def newOrderCustomerMail (nf : Notifier) (order : Order) (customer : User)
    (customerHtml : String) : Mail :=
  { mailFrom := fromHeader nf
    mailTo := customer.email
    subject := "Your Joyvinco Order is Confirmed! #" ++ sliceLast6 order.id
    html := customerHtml }

/-- Administrator message of `sendNewOrderEmails`. -/
def newOrderAdminMail (nf : Notifier) (order : Order) (adminEmails : List String)
    (adminHtml : String) : Mail :=
  { mailFrom := fromHeader nf
    mailTo := String.intercalate "," adminEmails
    subject := "[ADMIN] New Order Received! #" ++ sliceLast6 order.id
    html := adminHtml }

/-- Body of the `try` block of `sendNewOrderEmails`: the result is `error` when a step
throws, and the list holds the `sendMail` attempts made up to that point. -/
def sendNewOrderEmailsBody (nf : Notifier) (s : Store) (order : Order)
    (cartItems : List CartItem) (totalAmount : JsNumber) : Except String Unit × List Mail :=
  match userFindUnique nf s order.userId with
  | .error e => (.error e, [])
  | .ok none => (.error "Customer not found for order email.", [])
  | .ok (some customer) =>
    let customerTemplatePath := pathResolve nf.cwd "src/views/customer-order-confirmation.ejs"
    let vars : RenderData := ⟨order, customer, some cartItems, some totalAmount⟩
    match nf.renderFile customerTemplatePath vars with
    | .error e => (.error e, [])
    | .ok customerHtml =>
      let customerMail := newOrderCustomerMail nf order customer customerHtml
      match nf.sendMail customerMail with
      | some e => (.error e, [customerMail])
      | none =>
        match userFindManyAdmins nf s with
        | .error e => (.error e, [customerMail])
        | .ok admins =>
          let adminEmails := admins.map (fun admin => admin.email)
          if adminEmails.length > 0 then
            let adminTemplatePath := pathResolve nf.cwd "src/views/admin-new-order.ejs"
            match nf.renderFile adminTemplatePath vars with
            | .error e => (.error e, [customerMail])
            | .ok adminHtml =>
              let adminMail := newOrderAdminMail nf order adminEmails adminHtml
              match nf.sendMail adminMail with
              | some e => (.error e, [customerMail, adminMail])
              | none => (.ok (), [customerMail, adminMail])
          else
            (.ok (), [customerMail])

/-- The `try`/`catch` of a dispatcher: a thrown error is logged under `label` and the
function returns normally. -/
def catchAndLog (label : String) (r : Except String Unit × List Mail) :
    Except String Unit × Trace :=
  match r with
  | (.ok _, mails) => (.ok (), ⟨[], mails, []⟩)
  | (.error e, mails) => (.ok (), ⟨[], mails, [⟨label, e⟩]⟩)

/-- Dispatcher `sendNewOrderEmails(order, cartItems, totalAmount)`. -/
def sendNewOrderEmails (nf : Notifier) (s : Store) (order : Order)
    (cartItems : List CartItem) (totalAmount : JsNumber) : Except String Unit × Trace :=
  catchAndLog "--- Failed to send new order notification emails ---"
    (sendNewOrderEmailsBody nf s order cartItems totalAmount)

/-- Shared shape of the `try` blocks of the three status dispatchers: look the customer
up, render `template`, send one message with the subject `subject`. -/
def statusEmailBody (nf : Notifier) (s : Store) (order : Order)
    (notFound template subject : String) : Except String Unit × List Mail :=
  match userFindUnique nf s order.userId with
  | .error e => (.error e, [])
  | .ok none => (.error notFound, [])
  | .ok (some customer) =>
    let templatePath := pathResolve nf.cwd template
    match nf.renderFile templatePath ⟨order, customer, none, none⟩ with
    | .error e => (.error e, [])
    | .ok emailHtml =>
      let mail : Mail :=
        { mailFrom := fromHeader nf, mailTo := customer.email, subject := subject, html := emailHtml }
      match nf.sendMail mail with
      | some e => (.error e, [mail])
      | none => (.ok (), [mail])

/-- Dispatcher `sendShippingConfirmationEmail(order)`. -/
def sendShippingConfirmationEmail (nf : Notifier) (s : Store) (order : Order) :
    Except String Unit × Trace :=
  catchAndLog "--- Failed to send SHIPPED notification email ---"
    (statusEmailBody nf s order "Customer not found for shipping email."
      "src/views/customer-shipped-notification.ejs"
      ("Your Joyvinco Order Has Shipped! #" ++ sliceLast6 order.id))

/-- Dispatcher `sendDeliveryConfirmationEmail(order)`. -/
def sendDeliveryConfirmationEmail (nf : Notifier) (s : Store) (order : Order) :
    Except String Unit × Trace :=
  catchAndLog "--- Failed to send DELIVERED notification email ---"
    (statusEmailBody nf s order "Customer not found for delivery email."
      "src/views/customer-delivered-notification.ejs"
      ("Your Joyvinco Order #" ++ sliceLast6 order.id ++ " Has Been Delivered!"))

/-- Dispatcher `sendCancellationEmail(order)`. -/
def sendCancellationEmail (nf : Notifier) (s : Store) (order : Order) :
    Except String Unit × Trace :=
  catchAndLog "--- Failed to send CANCELLED notification email ---"
    (statusEmailBody nf s order "Customer not found for cancellation email."
      "src/views/customer-cancelled-notification.ejs"
      ("Your Joyvinco Order #" ++ sliceLast6 order.id ++ " Has Been Cancelled"))

/-! ## Order controller -/

/-- Query `prisma.cart.findUnique({ where: { userId }, include: { items: { include:
{ product: true } } } })`. -/
def cartFindUnique (db : Db) (s : Store) (userId : String) : Except String (Option Cart) :=
  match db.fault .cartFindUnique with
  | some e => .error e
  | none =>
    match s.carts.find? (fun c => decide (c.userId = userId)) with
    | none => .ok none
    | some c =>
      .ok (some ⟨c.id, c.userId, s.cartItems.filter (fun i => decide (i.cartId = c.id))⟩)

/-- Write `tx.order.create({ data })`: the database fills in `id` and `createdAt`. -/
def orderCreate (db : Db) (tx : Store) (userId : String) (totalAmount : JsNumber)
    (shippingAddress contactPhone customerName paymentMethod status : String) :
    Except String (Order × Store) :=
  match db.fault .orderCreate with
  | some e => .error e
  | none =>
    let newOrder : Order :=
      { id := db.newOrderId, userId := userId, totalAmount := totalAmount,
        shippingAddress := shippingAddress, contactPhone := contactPhone,
        customerName := customerName, paymentMethod := paymentMethod,
        status := status, createdAt := db.now }
    .ok (newOrder, { tx with orders := tx.orders ++ [newOrder] })

/-- Write `tx.orderItem.createMany({ data })`. -/
def orderItemCreateMany (db : Db) (tx : Store) (data : List OrderItem) : Except String Store :=
  match db.fault .orderItemCreateMany with
  | some e => .error e
  | none => .ok { tx with orderItems := tx.orderItems ++ data }

/-- Write `tx.cartItem.deleteMany({ where: { cartId } })`. -/
def cartItemDeleteMany (db : Db) (tx : Store) (cartId : String) : Except String Store :=
  match db.fault .cartItemDeleteMany with
  | some e => .error e
  | none => .ok { tx with cartItems := tx.cartItems.filter (fun i => !decide (i.cartId = cartId)) }

/-- Interactive transaction `prisma.$transaction(callback)`: the callback works on a
copy of the store; the copy becomes the store only if the callback returns and the
commit goes through, otherwise the error is rethrown and the store is as before. -/
def transaction {α : Type} (db : Db) (s : Store)
    (callback : Store → Except String (α × Store)) : Except String (α × Store) :=
  match callback s with
  | .error e => .error e
  | .ok (a, tx) =>
    match db.fault .transactionCommit with
    | some e => .error e
    | none => .ok (a, tx)

/-- The `reduce` of `createOrder`: running sum of `price * quantity`, starting from 0. -/
def cartTotal (items : List CartItem) : JsNumber :=
  items.foldl (fun sum item =>
    JsNumber.add sum (JsNumber.mul item.product.price (JsNumber.ofInt item.quantity)))
    JsNumber.zero

/-- Callback passed to `prisma.$transaction` by `createOrder`. -/
def createOrderTx (db : Db) (userId : String) (cart : Cart) (totalAmount : JsNumber)
    (shippingAddress contactPhone fullName paymentMethod : String) (tx : Store) :
    Except String (Order × Store) :=
  match orderCreate db tx userId totalAmount shippingAddress contactPhone fullName
      paymentMethod "PENDING" with
  | .error e => .error e
  | .ok (newOrder, tx1) =>
    match orderItemCreateMany db tx1 (cart.items.map (fun item =>
        { orderId := newOrder.id, productId := item.productId,
          quantity := item.quantity, price := item.product.price })) with
    | .error e => .error e
    | .ok tx2 =>
      match cartItemDeleteMany db tx2 cart.id with
      | .error e => .error e
      | .ok tx3 => .ok (newOrder, tx3)

/-- Response `res.status(status).json({ success: false, message })`. -/
def failure (status : Nat) (message : String) : Response :=
  ⟨status, ⟨false, message, none, none⟩⟩

/-- The `catch` of `createOrder`: log the error, answer 500, store as before the call. -/
def createOrderCatch (s : Store) (e : String) : Outcome :=
  { response := failure 500 "Internal server error."
    store := s
    trace := ⟨[], [], [⟨"--- Create Order Error ---", e⟩]⟩ }

/-- Handler `createOrder(req, res)`. -/
def createOrder (db : Db) (nf : Notifier) (req : CreateOrderRequest) (s : Store) : Outcome :=
  let userId := req.userId
  match req.shippingAddress, req.contactPhone, req.fullName, req.paymentMethod with
  | some shippingAddress, some contactPhone, some fullName, some paymentMethod =>
    if shippingAddress = "" ∨ contactPhone = "" ∨ fullName = "" ∨ paymentMethod = "" then
      ⟨failure 400 "All delivery and payment details are required.", s, ⟨[], [], []⟩⟩
    else
      match cartFindUnique db s userId with
      | .error e => createOrderCatch s e
      | .ok none => ⟨failure 400 "Your cart is empty.", s, ⟨[], [], []⟩⟩
      | .ok (some cart) =>
        if cart.items.length = 0 then
          ⟨failure 400 "Your cart is empty.", s, ⟨[], [], []⟩⟩
        else
          let totalAmount := cartTotal cart.items
          match transaction db s (createOrderTx db userId cart totalAmount
              shippingAddress contactPhone fullName paymentMethod) with
          | .error e => createOrderCatch s e
          | .ok (order, s1) =>
            let sent := (sendNewOrderEmails nf s1 order cart.items totalAmount).2
            { response := ⟨201, ⟨true, "Order placed successfully!", some order, none⟩⟩
              store := s1
              trace := ⟨[.newOrder order cart.items totalAmount], sent.mails, sent.logs⟩ }
  | _, _, _, _ =>
    ⟨failure 400 "All delivery and payment details are required.", s, ⟨[], [], []⟩⟩

/-- The row selected by `where: { id }` gets the new status; the result is the updated
row and the table, or `none` when no row has that id. -/
def setStatus (id status : String) : List Order → Option (Order × List Order)
  | [] => none
  | o :: rest =>
    if o.id = id then
      some ({ o with status := status }, { o with status := status } :: rest)
    else
      match setStatus id status rest with
      | none => none
      | some (u, rest1) => some (u, o :: rest1)

/-- Write `prisma.order.update({ where: { id }, data: { status } })`: throws when no
order has that id. -/
def orderUpdate (db : Db) (s : Store) (id status : String) : Except String (Order × Store) :=
  match db.fault .orderUpdate with
  | some e => .error e
  | none =>
    match setStatus id status s.orders with
    | none => .error "Record to update not found."
    | some (updatedOrder, orders) => .ok (updatedOrder, { s with orders := orders })

/-- The status branch of `updateOrderStatus`: which dispatcher is called, and what it did. -/
def notifyStatus (nf : Notifier) (s : Store) (updatedOrder : Order) : Trace :=
  if updatedOrder.status = "SHIPPED" then
    let sent := (sendShippingConfirmationEmail nf s updatedOrder).2
    ⟨[.shipping updatedOrder], sent.mails, sent.logs⟩
  else if updatedOrder.status = "DELIVERED" then
    let sent := (sendDeliveryConfirmationEmail nf s updatedOrder).2
    ⟨[.delivery updatedOrder], sent.mails, sent.logs⟩
  else if updatedOrder.status = "CANCELLED" then
    let sent := (sendCancellationEmail nf s updatedOrder).2
    ⟨[.cancellation updatedOrder], sent.mails, sent.logs⟩
  else
    ⟨[], [], []⟩

/-- Handler `updateOrderStatus(req, res)`. -/
def updateOrderStatus (db : Db) (nf : Notifier) (req : UpdateStatusRequest) (s : Store) :
    Outcome :=
  let id := req.id
  match req.status with
  | none => ⟨failure 400 "Status is required.", s, ⟨[], [], []⟩⟩
  | some status =>
    if status = "" then
      ⟨failure 400 "Status is required.", s, ⟨[], [], []⟩⟩
    else
      match orderUpdate db s id status with
      | .error e =>
        { response := failure 500 "Internal server error."
          store := s
          trace := ⟨[], [], [⟨"--- Update Order Status Error ---", e⟩]⟩ }
      | .ok (updatedOrder, s1) =>
        { response := ⟨200, ⟨true, "Order status updated to " ++ status ++ ".", none,
            some updatedOrder⟩⟩
          store := s1
          trace := notifyStatus nf s1 updatedOrder }

/-! ## Words of the specification -/

/-- A required field is missing or empty. -/
def missingOrEmpty (v : Option String) : Prop :=
  v = none ∨ v = some ""

/-- All four delivery and payment fields are present (and non-empty) with these values. -/
def fieldsPresent (req : CreateOrderRequest) (addr phone name pay : String) : Prop :=
  req.shippingAddress = some addr ∧ req.contactPhone = some phone ∧
  req.fullName = some name ∧ req.paymentMethod = some pay ∧
  addr ≠ "" ∧ phone ≠ "" ∧ name ≠ "" ∧ pay ≠ ""

/-- The sum over the cart items of price times quantity in exact arithmetic; `none` when
a price is not finite. -/
def exactTotal : List CartItem → Option ℚ
  | [] => some 0
  | i :: rest =>
    match i.product.price.toRat?, exactTotal rest with
    | some p, some r => some (p * (i.quantity : ℚ) + r)
    | _, _ => none

/-- No arithmetic step of the running sum over `items`, started from `acc`, rounds: each
product has the exact value of price times quantity, and each partial sum has the exact
value of the sum so far plus the product. -/
def roundsNowhere : JsNumber → List CartItem → Prop
  | _, [] => True
  | acc, i :: rest =>
    ∃ a p : ℚ, acc.toRat? = some a ∧ i.product.price.toRat? = some p ∧
      (JsNumber.mul i.product.price (JsNumber.ofInt i.quantity)).toRat? =
        some (p * (i.quantity : ℚ)) ∧
      (JsNumber.add acc (JsNumber.mul i.product.price (JsNumber.ofInt i.quantity))).toRat? =
        some (a + p * (i.quantity : ℚ)) ∧
      roundsNowhere
        (JsNumber.add acc (JsNumber.mul i.product.price (JsNumber.ofInt i.quantity))) rest

/-- No step of the transaction of `createOrder` fails. -/
def txSucceeds (db : Db) : Prop :=
  db.fault .orderCreate = none ∧ db.fault .orderItemCreateMany = none ∧
  db.fault .cartItemDeleteMany = none ∧ db.fault .transactionCommit = none

/-- Some step of the transaction of `createOrder` fails. -/
def txFails (db : Db) : Prop :=
  db.fault .orderCreate ≠ none ∨ db.fault .orderItemCreateMany ≠ none ∨
  db.fault .cartItemDeleteMany ≠ none ∨ db.fault .transactionCommit ≠ none

/-! ## Sample data -/

/-- Product A of the worked example: price 10.00. -/
def demoProductA : Product := ⟨"pA", JsNumber.ofInt 10⟩

/-- Product B of the worked example: price 5.50, the number `11 * 2^(-1)`. -/
def demoProductB : Product := ⟨"pB", JsNumber.round false 11 (-1)⟩

/-- The number 25.50, `51 * 2^(-1)`. -/
def demoTotal : JsNumber := JsNumber.round false 51 (-1)

/-- The number written `0.1`: the binary64 value nearest to one tenth. -/
def tenth : JsNumber := .fin false 7205759403792794 (-56)

/-- Cart of user `u1` with one item: a product of price 0.1, quantity 3. -/
def tenthCart : Cart :=
  ⟨"c1", "u1", [⟨"i1", "c1", "pT", 3, ⟨"pT", tenth⟩⟩]⟩

/-- Store in which the cart of user `u1` is `tenthCart`, and there is no order yet. -/
def tenthStore : Store :=
  { users := [⟨"u1", "ann@example.com", "USER"⟩]
    carts := [⟨"c1", "u1"⟩]
    cartItems := [⟨"i1", "c1", "pT", 3, ⟨"pT", tenth⟩⟩]
    orders := []
    orderItems := [] }

/-- Cart of user `u1` as loaded: A with quantity 2 and B with quantity 1. -/
def demoCart : Cart :=
  ⟨"c1", "u1", [⟨"i1", "c1", "pA", 2, demoProductA⟩, ⟨"i3", "c1", "pB", 1, demoProductB⟩]⟩

/-- Store with a customer, two administrators, two carts, and one delivered order. -/
def demoStore : Store :=
  { users := [⟨"u1", "ann@example.com", "USER"⟩, ⟨"u2", "root@example.com", "ADMIN"⟩,
      ⟨"u3", "ops@example.com", "ADMIN"⟩]
    carts := [⟨"c1", "u1"⟩, ⟨"c2", "u2"⟩, ⟨"c4", "u4"⟩]
    cartItems := [⟨"i1", "c1", "pA", 2, demoProductA⟩, ⟨"i2", "c2", "pA", 7, demoProductA⟩,
      ⟨"i3", "c1", "pB", 1, demoProductB⟩]
    orders := [⟨"ord-000000001", "u1", JsNumber.ofInt 40, "9 Old Rd", "555", "Ann", "CASH",
        "DELIVERED", 10⟩,
      ⟨"ord-000000002", "u2", JsNumber.ofInt 10, "2 High St", "777", "Root", "CARD",
        "PENDING", 20⟩]
    orderItems := [⟨"ord-000000001", "pA", 4, JsNumber.ofInt 10⟩,
      ⟨"ord-000000002", "pA", 1, JsNumber.ofInt 10⟩] }

/-- Database on which no operation fails. -/
def demoDb : Db := ⟨fun _ => none, "ord-000123456", 1000⟩

/-- Database whose `cartItem.deleteMany` throws. -/
def demoDbDeleteFault : Db :=
  ⟨fun op => if op = DbOp.cartItemDeleteMany then some "storage fault" else none,
    "ord-000123456", 1000⟩

/-- Notification collaborators that all succeed. -/
def demoNf : Notifier :=
  ⟨"shop@example.com", "/app", none, none, fun p _ => .ok ("<html>" ++ p), fun _ => none⟩

/-- Notification collaborators whose mail transport always fails. -/
def demoNfSmtpDown : Notifier :=
  ⟨"shop@example.com", "/app", none, none, fun p _ => .ok ("<html>" ++ p),
    fun _ => some "connect ECONNREFUSED"⟩

/-- Notification collaborators whose renderer always fails. -/
def demoNfRenderDown : Notifier :=
  ⟨"shop@example.com", "/app", none, none, fun _ _ => .error "ENOENT", fun _ => none⟩

/-- Well-formed checkout request of user `u1`. -/
def demoReq : CreateOrderRequest :=
  ⟨"u1", some "1 Main St", some "555", some "Ann", some "CARD"⟩

/-- Order row created for `demoReq` on `demoStore` (total 25.50). -/
def demoOrder : Order :=
  ⟨"ord-000123456", "u1", demoTotal, "1 Main St", "555", "Ann", "CARD", "PENDING", 1000⟩

/-! ## Lemmas on the order controller -/

/-- When no step rounds, the running sum started from `acc` has the exact value of `acc`
plus the exact total of the items. -/
theorem foldl_exact (items : List CartItem) :
    ∀ (acc : JsNumber) (a : ℚ), acc.toRat? = some a → roundsNowhere acc items →
      ∃ r : ℚ, exactTotal items = some r ∧
        (items.foldl (fun sum item =>
          JsNumber.add sum (JsNumber.mul item.product.price (JsNumber.ofInt item.quantity)))
          acc).toRat? = some (a + r) := by
  induction items with
  | nil =>
    intro acc a ha _
    exact ⟨0, rfl, by simpa using ha⟩
  | cons i rest ih =>
    intro acc a ha h
    obtain ⟨a1, p, h1, hp, -, hadd, hrest⟩ := h
    have haa : a1 = a := Option.some.inj (h1.symm.trans ha)
    subst haa
    obtain ⟨r, hr, hfold⟩ := ih _ _ hadd hrest
    refine ⟨p * (i.quantity : ℚ) + r, ?_, ?_⟩
    · simp [exactTotal, hp, hr]
    · rw [List.foldl_cons, hfold, add_assoc]

/-- What `createOrder` does when the fields are present, the cart is loaded with at least
one item and no step of the transaction fails. -/
theorem createOrder_commit (db : Db) (nf : Notifier) (req : CreateOrderRequest) (s : Store)
    (cart : Cart) (addr phone name pay : String)
    (hf : fieldsPresent req addr phone name pay)
    (hc : cartFindUnique db s req.userId = .ok (some cart))
    (hne : cart.items ≠ [])
    (htx : txSucceeds db) :
    createOrder db nf req s =
      let order : Order :=
        { id := db.newOrderId, userId := req.userId, totalAmount := cartTotal cart.items,
          shippingAddress := addr, contactPhone := phone, customerName := name,
          paymentMethod := pay, status := "PENDING", createdAt := db.now }
      let s1 : Store :=
        { s with
          orders := s.orders ++ [order]
          orderItems := s.orderItems ++ cart.items.map (fun item =>
            { orderId := order.id, productId := item.productId,
              quantity := item.quantity, price := item.product.price })
          cartItems := s.cartItems.filter (fun i => !decide (i.cartId = cart.id)) }
      let sent := (sendNewOrderEmails nf s1 order cart.items (cartTotal cart.items)).2
      { response := ⟨201, ⟨true, "Order placed successfully!", some order, none⟩⟩
        store := s1
        trace := ⟨[.newOrder order cart.items (cartTotal cart.items)], sent.mails, sent.logs⟩ } := by
  obtain ⟨h1, h2, h3, h4, n1, n2, n3, n4⟩ := hf
  obtain ⟨t1, t2, t3, t4⟩ := htx
  have hlen : cart.items.length ≠ 0 := by
    intro h; exact hne (List.length_eq_zero.mp h)
  simp [createOrder, h1, h2, h3, h4, n1, n2, n3, n4, hc, hlen, transaction, createOrderTx,
    orderCreate, orderItemCreateMany, cartItemDeleteMany, t1, t2, t3, t4]

/-- The callback of the transaction throws, or the commit does, when some step fails. -/
theorem transaction_fails (db : Db) (s : Store) (userId : String) (cart : Cart) (total : JsNumber)
    (addr phone name pay : String) (h : txFails db) :
    ∃ e, transaction db s (createOrderTx db userId cart total addr phone name pay) = .error e := by
  unfold transaction createOrderTx orderCreate orderItemCreateMany cartItemDeleteMany
  cases h1 : db.fault .orderCreate with
  | some e => exact ⟨e, by simp⟩
  | none =>
    cases h2 : db.fault .orderItemCreateMany with
    | some e => exact ⟨e, by simp⟩
    | none =>
      cases h3 : db.fault .cartItemDeleteMany with
      | some e => exact ⟨e, by simp⟩
      | none =>
        cases h4 : db.fault .transactionCommit with
        | some e => exact ⟨e, by simp⟩
        | none => simp [txFails, h1, h2, h3, h4] at h

/-- What `createOrder` does when it reaches the transaction and the transaction fails. -/
theorem createOrder_rollback (db : Db) (nf : Notifier) (req : CreateOrderRequest) (s : Store)
    (cart : Cart) (addr phone name pay : String)
    (hf : fieldsPresent req addr phone name pay)
    (hc : cartFindUnique db s req.userId = .ok (some cart))
    (hne : cart.items ≠ [])
    (htx : txFails db) :
    ∃ e, createOrder db nf req s = createOrderCatch s e := by
  obtain ⟨h1, h2, h3, h4, n1, n2, n3, n4⟩ := hf
  obtain ⟨e, he⟩ := transaction_fails db s req.userId cart (cartTotal cart.items)
    addr phone name pay htx
  have hlen : cart.items.length ≠ 0 := by
    intro h; exact hne (List.length_eq_zero.mp h)
  refine ⟨e, ?_⟩
  simp [createOrder, h1, h2, h3, h4, n1, n2, n3, n4, hc, hlen, he]

theorem demo_fieldsPresent : fieldsPresent demoReq "1 Main St" "555" "Ann" "CARD" :=
  ⟨rfl, rfl, rfl, rfl, by decide, by decide, by decide, by decide⟩

theorem demo_cart : cartFindUnique demoDb demoStore demoReq.userId = .ok (some demoCart) := rfl

theorem demo_cart_nonempty : demoCart.items ≠ [] := by simp [demoCart]

theorem demo_txSucceeds : txSucceeds demoDb := ⟨rfl, rfl, rfl, rfl⟩

/-! ## Claims on `createOrder` -/

/-- C1 as stated fails: for the cart holding one item of price 0.1 and quantity 3, the
`totalAmount` stored on the created order is the number 0.30000000000000004
(`5404319552844596 * 2^(-54)`), which is not the sum of price times quantity over the
items of the loaded cart. -/
theorem createOrder_totalAmount_rounds :
    fieldsPresent demoReq "1 Main St" "555" "Ann" "CARD" ∧
    cartFindUnique demoDb tenthStore demoReq.userId = .ok (some tenthCart) ∧
    tenthCart.items ≠ [] ∧ txSucceeds demoDb ∧
    (∃ o : Order,
      (createOrder demoDb demoNf demoReq tenthStore).store.orders = tenthStore.orders ++ [o] ∧
      o.totalAmount = .fin false 5404319552844596 (-54)) ∧
    ¬ ∃ o : Order,
      (createOrder demoDb demoNf demoReq tenthStore).store.orders = tenthStore.orders ++ [o] ∧
      o.totalAmount.toRat? = exactTotal tenthCart.items := by
  have hne : tenthCart.items ≠ [] := by simp [tenthCart]
  have hrun := createOrder_commit demoDb demoNf demoReq tenthStore tenthCart
    "1 Main St" "555" "Ann" "CARD" demo_fieldsPresent rfl hne demo_txSucceeds
  have htot : cartTotal tenthCart.items = .fin false 5404319552844596 (-54) := by decide!
  refine ⟨demo_fieldsPresent, rfl, hne, demo_txSucceeds, ?_, ?_⟩
  · rw [hrun]
    refine ⟨_, rfl, ?_⟩
    dsimp only
    exact htot
  · rintro ⟨o, ho, ht⟩
    rw [hrun] at ho
    have ho2 := (List.cons.inj ho).1
    rw [← ho2] at ht
    dsimp only at ht
    rw [htot] at ht
    simp [JsNumber.toRat?, exactTotal, tenthCart, tenth] at ht
    norm_num at ht

/-- C1, amended: for every cart with at least one item, the `totalAmount` stored on the
order that `createOrder` creates (and returns) is the running sum, from 0 and in cart
order, of product price times quantity in JavaScript number arithmetic, with the prices
loaded with the cart; when no product and no partial sum rounds, its value is the sum of
price times quantity over the cart items. -/
theorem createOrder_totalAmount (db : Db) (nf : Notifier) (req : CreateOrderRequest)
    (s : Store) (cart : Cart) (addr phone name pay : String)
    (hf : fieldsPresent req addr phone name pay)
    (hc : cartFindUnique db s req.userId = .ok (some cart))
    (hne : cart.items ≠ [])
    (htx : txSucceeds db) :
    ∃ o : Order,
      (createOrder db nf req s).store.orders = s.orders ++ [o] ∧
      (createOrder db nf req s).response.body.order = some o ∧
      o.totalAmount = cart.items.foldl (fun sum item =>
        JsNumber.add sum (JsNumber.mul item.product.price (JsNumber.ofInt item.quantity)))
        JsNumber.zero ∧
      (roundsNowhere JsNumber.zero cart.items →
        o.totalAmount.toRat? = exactTotal cart.items) := by
  rw [createOrder_commit db nf req s cart addr phone name pay hf hc hne htx]
  refine ⟨_, rfl, rfl, rfl, ?_⟩
  intro h
  obtain ⟨r, hr, hfold⟩ := foldl_exact cart.items JsNumber.zero 0
    (by simp [JsNumber.zero, JsNumber.toRat?]) h
  rw [hr]
  simpa [cartTotal] using hfold

/-- The worked example of C1: items (10.00, 2) and (5.50, 1); no step rounds and the
stored total is the number 25.50. -/
theorem createOrder_totalAmount_witness :
    fieldsPresent demoReq "1 Main St" "555" "Ann" "CARD" ∧
    cartFindUnique demoDb demoStore demoReq.userId = .ok (some demoCart) ∧
    demoCart.items ≠ [] ∧ txSucceeds demoDb ∧
    roundsNowhere JsNumber.zero demoCart.items ∧
    exactTotal demoCart.items = some (51 / 2) ∧
    ∃ o : Order,
      (createOrder demoDb demoNf demoReq demoStore).store.orders = demoStore.orders ++ [o] ∧
      (createOrder demoDb demoNf demoReq demoStore).response.body.order = some o ∧
      o.totalAmount = .fin false 7177611906121728 (-48) ∧
      o.totalAmount.toRat? = some (51 / 2) := by
  have hA : demoProductA.price = .fin false 5629499534213120 (-49) := by decide!
  have hB : demoProductB.price = .fin false 6192449487634432 (-50) := by decide!
  have hm1 : JsNumber.mul (.fin false 5629499534213120 (-49)) (JsNumber.ofInt 2)
      = .fin false 5629499534213120 (-48) := by decide!
  have hs1 : JsNumber.add JsNumber.zero (.fin false 5629499534213120 (-48))
      = .fin false 5629499534213120 (-48) := by decide!
  have hm2 : JsNumber.mul (.fin false 6192449487634432 (-50)) (JsNumber.ofInt 1)
      = .fin false 6192449487634432 (-50) := by decide!
  have hs2 : JsNumber.add (.fin false 5629499534213120 (-48))
      (.fin false 6192449487634432 (-50)) = .fin false 7177611906121728 (-48) := by decide!
  have hex : exactTotal demoCart.items = some (51 / 2) := by
    simp [exactTotal, demoCart, hA, hB, JsNumber.toRat?]
    norm_num
  have hround : roundsNowhere JsNumber.zero demoCart.items := by
    simp only [demoCart, roundsNowhere, hA, hB, hm1, hs1, hm2, hs2]
    refine ⟨0, 10, ?_, ?_, ?_, ?_, 20, 11 / 2, ?_, ?_, ?_, ?_, trivial⟩ <;>
      simp [JsNumber.zero, JsNumber.toRat?] <;> norm_num
  obtain ⟨o, h1, h2, h3, h4⟩ := createOrder_totalAmount demoDb demoNf demoReq demoStore demoCart
    "1 Main St" "555" "Ann" "CARD" demo_fieldsPresent demo_cart demo_cart_nonempty demo_txSucceeds
  have hval : o.totalAmount = .fin false 7177611906121728 (-48) := by
    rw [h3]
    simp only [demoCart, List.foldl_cons, List.foldl_nil, hA, hB, hm1, hs1, hm2, hs2]
  exact ⟨demo_fieldsPresent, demo_cart, demo_cart_nonempty, demo_txSucceeds, hround, hex,
    o, h1, h2, hval, (h4 hround).trans hex⟩

/-- C3: with the four fields present, a cart of n ≥ 1 items and a transaction that succeeds,
`createOrder` answers 201 with the created order; the store gains exactly that one order
(status PENDING, owned by the caller) and exactly n order items referring to it, one per
cart item in cart order with that item's productId, quantity and product price; the
caller's cart is left with zero items and nothing else in the store changes. -/
theorem createOrder_success (db : Db) (nf : Notifier) (req : CreateOrderRequest)
    (s : Store) (cart : Cart) (addr phone name pay : String) (n : Nat)
    (hf : fieldsPresent req addr phone name pay)
    (hc : cartFindUnique db s req.userId = .ok (some cart))
    (hn : cart.items.length = n) (hpos : 1 ≤ n)
    (htx : txSucceeds db) :
    ∃ o : Order,
      (createOrder db nf req s).response =
        ⟨201, ⟨true, "Order placed successfully!", some o, none⟩⟩ ∧
      o.status = "PENDING" ∧ o.userId = req.userId ∧
      o.shippingAddress = addr ∧ o.contactPhone = phone ∧ o.customerName = name ∧
      o.paymentMethod = pay ∧
      (createOrder db nf req s).store.orders = s.orders ++ [o] ∧
      (createOrder db nf req s).store.orderItems =
        s.orderItems ++ cart.items.map (fun i =>
          ({ orderId := o.id, productId := i.productId, quantity := i.quantity,
             price := i.product.price } : OrderItem)) ∧
      ((createOrder db nf req s).store.orderItems.drop s.orderItems.length).length = n ∧
      cartFindUnique db (createOrder db nf req s).store req.userId =
        .ok (some ⟨cart.id, cart.userId, []⟩) ∧
      (createOrder db nf req s).store.cartItems =
        s.cartItems.filter (fun i => !decide (i.cartId = cart.id)) ∧
      (createOrder db nf req s).store.carts = s.carts ∧
      (createOrder db nf req s).store.users = s.users := by
  have hne : cart.items ≠ [] := by
    intro h; rw [h] at hn; simp at hn; omega
  rw [createOrder_commit db nf req s cart addr phone name pay hf hc hne htx]
  refine ⟨_, rfl, rfl, rfl, rfl, rfl, rfl, rfl, rfl, rfl, ?_, ?_, rfl, rfl, rfl⟩
  · simp [hn]
  · unfold cartFindUnique at hc ⊢
    cases hfault : db.fault .cartFindUnique with
    | some e => simp [hfault] at hc
    | none =>
      cases hfind : s.carts.find? (fun c => decide (c.userId = req.userId)) with
      | none => simp [hfault, hfind] at hc
      | some c =>
        simp only [hfault, hfind, Except.ok.injEq, Option.some.injEq] at hc
        subst hc
        simp [hfind, List.filter_filter]

/-- Instance of C3 on the sample store: two cart items become two order items. -/
theorem createOrder_success_witness :
    fieldsPresent demoReq "1 Main St" "555" "Ann" "CARD" ∧
    cartFindUnique demoDb demoStore demoReq.userId = .ok (some demoCart) ∧
    demoCart.items.length = 2 ∧ txSucceeds demoDb ∧
    ∃ o : Order,
      (createOrder demoDb demoNf demoReq demoStore).response =
        ⟨201, ⟨true, "Order placed successfully!", some o, none⟩⟩ ∧
      o.status = "PENDING" ∧ o.userId = "u1" ∧
      (createOrder demoDb demoNf demoReq demoStore).store.orders = demoStore.orders ++ [o] ∧
      (createOrder demoDb demoNf demoReq demoStore).store.orderItems =
        demoStore.orderItems ++ [⟨o.id, "pA", 2, JsNumber.ofInt 10⟩,
          ⟨o.id, "pB", 1, JsNumber.round false 11 (-1)⟩] ∧
      cartFindUnique demoDb (createOrder demoDb demoNf demoReq demoStore).store "u1" =
        .ok (some ⟨"c1", "u1", []⟩) := by
  obtain ⟨o, h1, h2, h3, _, _, _, _, h4, h5, _, h6, _⟩ :=
    createOrder_success demoDb demoNf demoReq demoStore demoCart
      "1 Main St" "555" "Ann" "CARD" 2 demo_fieldsPresent demo_cart rfl (by decide)
      demo_txSucceeds
  exact ⟨demo_fieldsPresent, demo_cart, rfl, demo_txSucceeds, o, h1, h2, h3, h4, h5, h6⟩

/-- C4: with the required fields present, when the cart lookup finds no cart, or a cart
with zero items, `createOrder` answers 400 "Your cart is empty.", the store is exactly as
before, no dispatcher is called, no mail is attempted and nothing is logged. -/
theorem createOrder_empty_cart (db : Db) (nf : Notifier) (req : CreateOrderRequest)
    (s : Store) (addr phone name pay : String)
    (hf : fieldsPresent req addr phone name pay)
    (hc : cartFindUnique db s req.userId = .ok none ∨
      ∃ cart : Cart, cartFindUnique db s req.userId = .ok (some cart) ∧ cart.items.length = 0) :
    (createOrder db nf req s).response = failure 400 "Your cart is empty." ∧
    (createOrder db nf req s).store = s ∧
    (createOrder db nf req s).trace = ⟨[], [], []⟩ := by
  obtain ⟨h1, h2, h3, h4, n1, n2, n3, n4⟩ := hf
  rcases hc with hc | ⟨cart, hc, hz⟩
  · simp [createOrder, h1, h2, h3, h4, n1, n2, n3, n4, hc]
  · simp [createOrder, h1, h2, h3, h4, n1, n2, n3, n4, hc, hz]

/-- Instances of C4: user `u9` has no cart, user `u4` has a cart without items. -/
theorem createOrder_empty_cart_witness :
    ((createOrder demoDb demoNf { demoReq with userId := "u9" } demoStore).response =
        failure 400 "Your cart is empty." ∧
      (createOrder demoDb demoNf { demoReq with userId := "u9" } demoStore).store = demoStore ∧
      (createOrder demoDb demoNf { demoReq with userId := "u9" } demoStore).trace =
        ⟨[], [], []⟩) ∧
    ((createOrder demoDb demoNf { demoReq with userId := "u4" } demoStore).response =
        failure 400 "Your cart is empty." ∧
      (createOrder demoDb demoNf { demoReq with userId := "u4" } demoStore).store = demoStore ∧
      (createOrder demoDb demoNf { demoReq with userId := "u4" } demoStore).trace =
        ⟨[], [], []⟩) :=
  ⟨createOrder_empty_cart demoDb demoNf { demoReq with userId := "u9" } demoStore
      "1 Main St" "555" "Ann" "CARD"
      ⟨rfl, rfl, rfl, rfl, by decide, by decide, by decide, by decide⟩ (Or.inl rfl),
   createOrder_empty_cart demoDb demoNf { demoReq with userId := "u4" } demoStore
      "1 Main St" "555" "Ann" "CARD"
      ⟨rfl, rfl, rfl, rfl, by decide, by decide, by decide, by decide⟩
      (Or.inr ⟨⟨"c4", "u4", []⟩, rfl, rfl⟩)⟩

/-- C7: when at least one of the four fields is missing or empty, `createOrder` answers 400
with the validation message for every database behaviour, every store (whatever the cart)
and every notifier; the store is as before, no dispatcher is called, no mail is attempted.
The answer does not depend on the cart lookup, which may even be failing. -/
theorem createOrder_missing_field (db : Db) (nf : Notifier) (req : CreateOrderRequest)
    (s : Store)
    (h : missingOrEmpty req.shippingAddress ∨ missingOrEmpty req.contactPhone ∨
      missingOrEmpty req.fullName ∨ missingOrEmpty req.paymentMethod) :
    (createOrder db nf req s).response =
      failure 400 "All delivery and payment details are required." ∧
    (createOrder db nf req s).store = s ∧
    (createOrder db nf req s).trace = ⟨[], [], []⟩ := by
  obtain ⟨userId, a, p, n, m⟩ := req
  simp only [missingOrEmpty] at h
  cases a <;> cases p <;> cases n <;> cases m <;> simp [createOrder] at h ⊢
  rename_i a p n m
  by_cases ha : a = "" <;> by_cases hp : p = "" <;> by_cases hn : n = "" <;>
    by_cases hm : m = "" <;> simp_all

/-- Instance of C7: an empty `fullName` with a non-empty cart, and a missing
`paymentMethod` while the cart lookup is failing. -/
theorem createOrder_missing_field_witness :
    ((createOrder demoDb demoNf { demoReq with fullName := some "" } demoStore).response =
        failure 400 "All delivery and payment details are required." ∧
      (createOrder demoDb demoNf { demoReq with fullName := some "" } demoStore).store =
        demoStore ∧
      (createOrder demoDb demoNf { demoReq with fullName := some "" } demoStore).trace =
        ⟨[], [], []⟩) ∧
    ((createOrder ⟨fun _ => some "db down", "x", 0⟩ demoNf
        { demoReq with paymentMethod := none } demoStore).response =
        failure 400 "All delivery and payment details are required." ∧
      (createOrder ⟨fun _ => some "db down", "x", 0⟩ demoNf
        { demoReq with paymentMethod := none } demoStore).store = demoStore ∧
      (createOrder ⟨fun _ => some "db down", "x", 0⟩ demoNf
        { demoReq with paymentMethod := none } demoStore).trace = ⟨[], [], []⟩) :=
  ⟨createOrder_missing_field demoDb demoNf { demoReq with fullName := some "" } demoStore
      (Or.inr (Or.inr (Or.inl (Or.inr rfl)))),
   createOrder_missing_field ⟨fun _ => some "db down", "x", 0⟩ demoNf
      { demoReq with paymentMethod := none } demoStore
      (Or.inr (Or.inr (Or.inr (Or.inl rfl))))⟩

/-- C2: when `createOrder` reaches its transaction and a step of it fails (order creation,
order item creation, cart clearing, or the commit), the store is exactly as before the
call (no new order, no new order item, the cart loads with the same items), the answer
is the 500 internal error, no dispatcher is called and no mail is attempted. -/
theorem createOrder_atomic (db : Db) (nf : Notifier) (req : CreateOrderRequest)
    (s : Store) (cart : Cart) (addr phone name pay : String)
    (hf : fieldsPresent req addr phone name pay)
    (hc : cartFindUnique db s req.userId = .ok (some cart))
    (hne : cart.items ≠ [])
    (htx : txFails db) :
    (createOrder db nf req s).response = failure 500 "Internal server error." ∧
    (createOrder db nf req s).store = s ∧
    (createOrder db nf req s).store.orders = s.orders ∧
    (createOrder db nf req s).store.orderItems = s.orderItems ∧
    cartFindUnique db (createOrder db nf req s).store req.userId = .ok (some cart) ∧
    (createOrder db nf req s).trace.dispatched = [] ∧
    (createOrder db nf req s).trace.mails = [] := by
  obtain ⟨e, he⟩ := createOrder_rollback db nf req s cart addr phone name pay hf hc hne htx
  rw [he]
  exact ⟨rfl, rfl, rfl, rfl, hc, rfl, rfl⟩

/-- Instance of C2: a storage fault in `cartItem.deleteMany`, after the order and its
items were written inside the transaction. -/
theorem createOrder_atomic_witness :
    fieldsPresent demoReq "1 Main St" "555" "Ann" "CARD" ∧
    cartFindUnique demoDbDeleteFault demoStore demoReq.userId = .ok (some demoCart) ∧
    demoCart.items ≠ [] ∧ txFails demoDbDeleteFault ∧
    (createOrder demoDbDeleteFault demoNf demoReq demoStore).response =
      failure 500 "Internal server error." ∧
    (createOrder demoDbDeleteFault demoNf demoReq demoStore).store = demoStore ∧
    (createOrder demoDbDeleteFault demoNf demoReq demoStore).trace.dispatched = [] ∧
    (createOrder demoDbDeleteFault demoNf demoReq demoStore).trace.mails = [] := by
  have hx : txFails demoDbDeleteFault := Or.inr (Or.inr (Or.inl (by decide)))
  obtain ⟨h1, h2, _, _, _, h3, h4⟩ :=
    createOrder_atomic demoDbDeleteFault demoNf demoReq demoStore demoCart
      "1 Main St" "555" "Ann" "CARD" demo_fieldsPresent rfl demo_cart_nonempty hx
  exact ⟨demo_fieldsPresent, rfl, demo_cart_nonempty, hx, h1, h2, h3, h4⟩

/-! ## Claims on `updateOrderStatus` -/

/-- When some order has the id, `setStatus` rewrites the first such row and no other. -/
theorem setStatus_of_mem (id status : String) (orders : List Order)
    (h : ∃ o ∈ orders, o.id = id) :
    ∃ pre o post, orders = pre ++ o :: post ∧ (∀ x ∈ pre, x.id ≠ id) ∧ o.id = id ∧
      setStatus id status orders =
        some ({ o with status := status }, pre ++ { o with status := status } :: post) := by
  induction orders with
  | nil => simp at h
  | cons a rest ih =>
    by_cases ha : a.id = id
    · exact ⟨[], a, rest, rfl, by simp, ha, by simp [setStatus, ha]⟩
    · have hrest : ∃ o ∈ rest, o.id = id := by
        obtain ⟨o, ho, hid⟩ := h
        rcases List.mem_cons.mp ho with rfl | ho
        · exact absurd hid ha
        · exact ⟨o, ho, hid⟩
      obtain ⟨pre, o, post, h1, h2, h3, h4⟩ := ih hrest
      refine ⟨a :: pre, o, post, by simp [h1], ?_, h3, by simp [setStatus, ha, h4]⟩
      intro x hx
      rcases List.mem_cons.mp hx with rfl | hx
      · exact ha
      · exact h2 x hx

/-- What `updateOrderStatus` does for a non-empty status when the update goes through. -/
theorem updateOrderStatus_ok (db : Db) (nf : Notifier) (req : UpdateStatusRequest)
    (s : Store) (st : String)
    (hs : req.status = some st) (hne : st ≠ "")
    (hdb : db.fault .orderUpdate = none)
    (hex : ∃ o ∈ s.orders, o.id = req.id) :
    ∃ pre o post, s.orders = pre ++ o :: post ∧ (∀ x ∈ pre, x.id ≠ req.id) ∧ o.id = req.id ∧
      updateOrderStatus db nf req s =
        { response := ⟨200, ⟨true, "Order status updated to " ++ st ++ ".", none,
            some { o with status := st }⟩⟩
          store := { s with orders := pre ++ { o with status := st } :: post }
          trace := notifyStatus nf { s with orders := pre ++ { o with status := st } :: post }
            { o with status := st } } := by
  obtain ⟨pre, o, post, h1, h2, h3, h4⟩ := setStatus_of_mem req.id st s.orders hex
  exact ⟨pre, o, post, h1, h2, h3, by simp [updateOrderStatus, hs, hne, orderUpdate, hdb, h4]⟩

/-- The sample store holds an order with id `ord-000000001`. -/
theorem demo_order_exists (id : String) (h : id = "ord-000000001") :
    ∃ o ∈ demoStore.orders, o.id = id :=
  ⟨⟨"ord-000000001", "u1", JsNumber.ofInt 40, "9 Old Rd", "555", "Ann", "CASH", "DELIVERED", 10⟩,
    by simp [demoStore], h.symm⟩

/-- C5: for every status value, a successful `updateOrderStatus` on an existing order runs
exactly one dispatcher on the updated order when the new status is exactly SHIPPED (the
shipping one), DELIVERED (the delivery one) or CANCELLED (the cancellation one): the
dispatcher calls are that one call, and the mail attempts and log entries of the handler
are those of that dispatcher.  For any other status value no dispatcher is called, no mail
is attempted and nothing is logged. -/
theorem updateOrderStatus_dispatch (db : Db) (nf : Notifier) (req : UpdateStatusRequest)
    (s : Store) (st : String)
    (hs : req.status = some st) (hne : st ≠ "")
    (hdb : db.fault .orderUpdate = none)
    (hex : ∃ o ∈ s.orders, o.id = req.id) :
    ∃ u : Order,
      (updateOrderStatus db nf req s).response.status = 200 ∧
      (updateOrderStatus db nf req s).response.body.data = some u ∧
      u.id = req.id ∧ u.status = st ∧
      (st = "SHIPPED" →
        (updateOrderStatus db nf req s).trace =
          ⟨[.shipping u],
            (sendShippingConfirmationEmail nf (updateOrderStatus db nf req s).store u).2.mails,
            (sendShippingConfirmationEmail nf (updateOrderStatus db nf req s).store u).2.logs⟩) ∧
      (st = "DELIVERED" →
        (updateOrderStatus db nf req s).trace =
          ⟨[.delivery u],
            (sendDeliveryConfirmationEmail nf (updateOrderStatus db nf req s).store u).2.mails,
            (sendDeliveryConfirmationEmail nf (updateOrderStatus db nf req s).store u).2.logs⟩) ∧
      (st = "CANCELLED" →
        (updateOrderStatus db nf req s).trace =
          ⟨[.cancellation u],
            (sendCancellationEmail nf (updateOrderStatus db nf req s).store u).2.mails,
            (sendCancellationEmail nf (updateOrderStatus db nf req s).store u).2.logs⟩) ∧
      (st ≠ "SHIPPED" → st ≠ "DELIVERED" → st ≠ "CANCELLED" →
        (updateOrderStatus db nf req s).trace = ⟨[], [], []⟩) := by
  obtain ⟨pre, o, post, -, -, h3, h4⟩ := updateOrderStatus_ok db nf req s st hs hne hdb hex
  rw [h4]
  refine ⟨{ o with status := st }, rfl, rfl, h3, rfl, ?_, ?_, ?_, ?_⟩
  · intro h; subst h; simp [notifyStatus]
  · intro h; subst h; simp [notifyStatus]
  · intro h; subst h; simp [notifyStatus]
  · intro a b c; simp [notifyStatus, a, b, c]

/-- Instances of C5 on the sample store, with collaborators that all succeed: SHIPPED,
DELIVERED and CANCELLED each produce exactly one call and one mail to the customer, with
the subject and the template of that kind; PROCESSING and PENDING produce nothing. -/
theorem updateOrderStatus_dispatch_witness :
    (updateOrderStatus demoDb demoNf ⟨"ord-000000001", some "SHIPPED"⟩ demoStore).trace =
      ⟨[.shipping ⟨"ord-000000001", "u1", JsNumber.ofInt 40, "9 Old Rd", "555", "Ann", "CASH",
          "SHIPPED", 10⟩],
        [⟨"\"Joyvinco\" <shop@example.com>", "ann@example.com",
          "Your Joyvinco Order Has Shipped! #000001",
          "<html>/app/src/views/customer-shipped-notification.ejs"⟩], []⟩ ∧
    (updateOrderStatus demoDb demoNf ⟨"ord-000000001", some "DELIVERED"⟩ demoStore).trace =
      ⟨[.delivery ⟨"ord-000000001", "u1", JsNumber.ofInt 40, "9 Old Rd", "555", "Ann", "CASH",
          "DELIVERED", 10⟩],
        [⟨"\"Joyvinco\" <shop@example.com>", "ann@example.com",
          "Your Joyvinco Order #000001 Has Been Delivered!",
          "<html>/app/src/views/customer-delivered-notification.ejs"⟩], []⟩ ∧
    (updateOrderStatus demoDb demoNf ⟨"ord-000000001", some "CANCELLED"⟩ demoStore).trace =
      ⟨[.cancellation ⟨"ord-000000001", "u1", JsNumber.ofInt 40, "9 Old Rd", "555", "Ann",
          "CASH", "CANCELLED", 10⟩],
        [⟨"\"Joyvinco\" <shop@example.com>", "ann@example.com",
          "Your Joyvinco Order #000001 Has Been Cancelled",
          "<html>/app/src/views/customer-cancelled-notification.ejs"⟩], []⟩ ∧
    (updateOrderStatus demoDb demoNf ⟨"ord-000000001", some "PROCESSING"⟩ demoStore).trace =
      ⟨[], [], []⟩ ∧
    (updateOrderStatus demoDb demoNf ⟨"ord-000000001", some "PENDING"⟩ demoStore).trace =
      ⟨[], [], []⟩ := by
  obtain ⟨u1, -, d1, -, -, h1, -, -, -⟩ :=
    updateOrderStatus_dispatch demoDb demoNf ⟨"ord-000000001", some "SHIPPED"⟩ demoStore
      "SHIPPED" rfl (by decide) rfl (demo_order_exists _ rfl)
  obtain ⟨u2, -, d2, -, -, -, h2, -, -⟩ :=
    updateOrderStatus_dispatch demoDb demoNf ⟨"ord-000000001", some "DELIVERED"⟩ demoStore
      "DELIVERED" rfl (by decide) rfl (demo_order_exists _ rfl)
  obtain ⟨u3, -, d3, -, -, -, -, h3, -⟩ :=
    updateOrderStatus_dispatch demoDb demoNf ⟨"ord-000000001", some "CANCELLED"⟩ demoStore
      "CANCELLED" rfl (by decide) rfl (demo_order_exists _ rfl)
  obtain ⟨-, -, -, -, -, -, -, -, h4⟩ :=
    updateOrderStatus_dispatch demoDb demoNf ⟨"ord-000000001", some "PROCESSING"⟩ demoStore
      "PROCESSING" rfl (by decide) rfl (demo_order_exists _ rfl)
  obtain ⟨-, -, -, -, -, -, -, -, h5⟩ :=
    updateOrderStatus_dispatch demoDb demoNf ⟨"ord-000000001", some "PENDING"⟩ demoStore
      "PENDING" rfl (by decide) rfl (demo_order_exists _ rfl)
  have e1 : u1 = ⟨"ord-000000001", "u1", JsNumber.ofInt 40, "9 Old Rd", "555", "Ann", "CASH",
      "SHIPPED", 10⟩ := Option.some.inj (d1.symm.trans rfl)
  have e2 : u2 = ⟨"ord-000000001", "u1", JsNumber.ofInt 40, "9 Old Rd", "555", "Ann", "CASH",
      "DELIVERED", 10⟩ := Option.some.inj (d2.symm.trans rfl)
  have e3 : u3 = ⟨"ord-000000001", "u1", JsNumber.ofInt 40, "9 Old Rd", "555", "Ann", "CASH",
      "CANCELLED", 10⟩ := Option.some.inj (d3.symm.trans rfl)
  subst e1 e2 e3
  refine ⟨?_, ?_, ?_, h4 (by decide) (by decide) (by decide),
    h5 (by decide) (by decide) (by decide)⟩
  · rw [h1 rfl]; rfl
  · rw [h2 rfl]; rfl
  · rw [h3 rfl]; rfl

/-- C8: for every existing order, whatever its current status, and every non-empty status
value, `updateOrderStatus` (when the update itself does not fail) answers 200 with the
order carrying the new status and all its other fields as before, and the store differs
only in that one row: the other orders, the order items, carts, cart items and users are
as before.  With a missing or empty status it answers 400 and the store is as before. -/
theorem updateOrderStatus_frame (db : Db) (nf : Notifier) (req : UpdateStatusRequest)
    (s : Store) :
    (∀ st : String, req.status = some st → st ≠ "" → db.fault .orderUpdate = none →
      (∃ o ∈ s.orders, o.id = req.id) →
      ∃ pre o post, s.orders = pre ++ o :: post ∧ (∀ x ∈ pre, x.id ≠ req.id) ∧
        o.id = req.id ∧
        (updateOrderStatus db nf req s).response =
          ⟨200, ⟨true, "Order status updated to " ++ st ++ ".", none,
            some { o with status := st }⟩⟩ ∧
        (updateOrderStatus db nf req s).store.orders =
          pre ++ { o with status := st } :: post ∧
        (updateOrderStatus db nf req s).store.orderItems = s.orderItems ∧
        (updateOrderStatus db nf req s).store.carts = s.carts ∧
        (updateOrderStatus db nf req s).store.cartItems = s.cartItems ∧
        (updateOrderStatus db nf req s).store.users = s.users) ∧
    (missingOrEmpty req.status →
      (updateOrderStatus db nf req s).response = failure 400 "Status is required." ∧
      (updateOrderStatus db nf req s).store = s ∧
      (updateOrderStatus db nf req s).trace = ⟨[], [], []⟩) := by
  constructor
  · intro st hs hne hdb hex
    obtain ⟨pre, o, post, h1, h2, h3, h4⟩ := updateOrderStatus_ok db nf req s st hs hne hdb hex
    rw [h4]
    exact ⟨pre, o, post, h1, h2, h3, rfl, rfl, rfl, rfl, rfl, rfl⟩
  · intro h
    rcases h with h | h <;> simp [updateOrderStatus, h]

/-- Instance of C8: the delivered sample order is set back to PENDING, the other order
and every order item stay as they are; a request with an empty status is refused. -/
theorem updateOrderStatus_frame_witness :
    ((updateOrderStatus demoDb demoNf ⟨"ord-000000001", some "PENDING"⟩ demoStore).response =
        ⟨200, ⟨true, "Order status updated to PENDING.", none,
          some ⟨"ord-000000001", "u1", JsNumber.ofInt 40, "9 Old Rd", "555", "Ann", "CASH",
            "PENDING", 10⟩⟩⟩ ∧
      (updateOrderStatus demoDb demoNf ⟨"ord-000000001", some "PENDING"⟩ demoStore).store.orders =
        [⟨"ord-000000001", "u1", JsNumber.ofInt 40, "9 Old Rd", "555", "Ann", "CASH",
            "PENDING", 10⟩,
          ⟨"ord-000000002", "u2", JsNumber.ofInt 10, "2 High St", "777", "Root", "CARD",
            "PENDING", 20⟩] ∧
      (updateOrderStatus demoDb demoNf ⟨"ord-000000001", some "PENDING"⟩ demoStore).store.orderItems
        = demoStore.orderItems) ∧
    ((updateOrderStatus demoDb demoNf ⟨"ord-000000001", some ""⟩ demoStore).response =
        failure 400 "Status is required." ∧
      (updateOrderStatus demoDb demoNf ⟨"ord-000000001", some ""⟩ demoStore).store = demoStore) := by
  obtain ⟨pre, o, post, h1, h2, h3, h4, h5, h6, -⟩ :=
    (updateOrderStatus_frame demoDb demoNf ⟨"ord-000000001", some "PENDING"⟩ demoStore).1
      "PENDING" rfl (by decide) rfl (demo_order_exists _ rfl)
  obtain ⟨h7, h8, -⟩ :=
    (updateOrderStatus_frame demoDb demoNf ⟨"ord-000000001", some ""⟩ demoStore).2 (Or.inr rfl)
  exact ⟨⟨rfl, rfl, h6⟩, h7, h8⟩

/-! ## Claims on the email service -/

theorem catchAndLog_returns (label : String) (r : Except String Unit × List Mail) :
    (catchAndLog label r).1 = .ok () := by
  unfold catchAndLog
  split <;> rfl

/-- The two messages of `sendNewOrderEmails` never coincide: their subjects differ. -/
theorem customer_ne_admin_mail (nf : Notifier) (order : Order) (customer : User)
    (customerHtml : String) (adminEmails : List String) (adminHtml : String) :
    newOrderAdminMail nf order adminEmails adminHtml ≠
      newOrderCustomerMail nf order customer customerHtml := by
  intro h
  have hs := congrArg Mail.subject h
  simp only [newOrderAdminMail, newOrderCustomerMail] at hs
  have hd := congrArg String.data hs
  simp only [String.data_append] at hd
  have := congrArg List.head? hd
  simp at this

/-- The transaction of `createOrder` neither reads nor writes the user table. -/
theorem transaction_users (db : Db) (s : Store) (us : List User) (userId : String)
    (cart : Cart) (total : JsNumber) (addr phone name pay : String) :
    transaction db { s with users := us } (createOrderTx db userId cart total addr phone name pay)
      = match transaction db s (createOrderTx db userId cart total addr phone name pay) with
        | .error e => .error e
        | .ok (o, t) => .ok (o, { t with users := us }) := by
  unfold transaction createOrderTx orderCreate orderItemCreateMany cartItemDeleteMany
  cases db.fault .orderCreate <;> cases db.fault .orderItemCreateMany <;>
    cases db.fault .cartItemDeleteMany <;> cases db.fault .transactionCommit <;> rfl

/-- Response, store and dispatcher call of `createOrder` are the same for any two
notifiers and any two user tables. -/
theorem createOrder_users_irrelevant (db : Db) (nf nf' : Notifier) (req : CreateOrderRequest)
    (s : Store) (us : List User) :
    (createOrder db nf' req { s with users := us }).response = (createOrder db nf req s).response ∧
    (createOrder db nf' req { s with users := us }).store =
      { (createOrder db nf req s).store with users := us } ∧
    (createOrder db nf' req { s with users := us }).trace.dispatched =
      (createOrder db nf req s).trace.dispatched := by
  have hcart : cartFindUnique db { s with users := us } req.userId
      = cartFindUnique db s req.userId := rfl
  unfold createOrder
  split
  · split
    · exact ⟨rfl, rfl, rfl⟩
    · simp only [hcart]
      split
      · exact ⟨rfl, rfl, rfl⟩
      · exact ⟨rfl, rfl, rfl⟩
      · split
        · exact ⟨rfl, rfl, rfl⟩
        · simp only [transaction_users]
          generalize transaction db s _ = r
          rcases r with e | ⟨o, t⟩ <;> exact ⟨rfl, rfl, rfl⟩
  · exact ⟨rfl, rfl, rfl⟩

/-- Response, store and dispatcher call of `updateOrderStatus` are the same for any two
notifiers and any two user tables. -/
theorem updateOrderStatus_users_irrelevant (db : Db) (nf nf' : Notifier)
    (req : UpdateStatusRequest) (s : Store) (us : List User) :
    (updateOrderStatus db nf' req { s with users := us }).response =
      (updateOrderStatus db nf req s).response ∧
    (updateOrderStatus db nf' req { s with users := us }).store =
      { (updateOrderStatus db nf req s).store with users := us } ∧
    (updateOrderStatus db nf' req { s with users := us }).trace.dispatched =
      (updateOrderStatus db nf req s).trace.dispatched := by
  have hupd : ∀ st, orderUpdate db { s with users := us } req.id st
      = match orderUpdate db s req.id st with
        | .error e => .error e
        | .ok (o, t) => .ok (o, { t with users := us }) := by
    intro st
    unfold orderUpdate
    cases db.fault .orderUpdate <;> cases setStatus req.id st s.orders <;> rfl
  unfold updateOrderStatus
  split
  · exact ⟨rfl, rfl, rfl⟩
  · split
    · exact ⟨rfl, rfl, rfl⟩
    · simp only [hupd]
      generalize orderUpdate db s req.id _ = r
      rcases r with e | ⟨o, t⟩
      · exact ⟨rfl, rfl, rfl⟩
      · refine ⟨rfl, rfl, ?_⟩
        simp only [notifyStatus]
        split_ifs <;> rfl

/-- C6: notification outcomes do not reach the handlers.  (1) Every dispatcher returns
normally for every behaviour of its collaborators.  (2) and (3) The response and the store
of `createOrder` and of `updateOrderStatus` are the same for any two notifiers and any two
user tables (the user table decides whether the customer lookup finds someone).  (4) A
`createOrder` whose transaction committed answers 201 with the order and leaves the
committed order, order items and emptied cart in the store, whatever the notifier does. -/
theorem notification_outcome_irrelevant :
    (∀ (nf : Notifier) (s : Store) (order : Order) (items : List CartItem) (total : JsNumber),
      (sendNewOrderEmails nf s order items total).1 = .ok () ∧
      (sendShippingConfirmationEmail nf s order).1 = .ok () ∧
      (sendDeliveryConfirmationEmail nf s order).1 = .ok () ∧
      (sendCancellationEmail nf s order).1 = .ok ()) ∧
    (∀ (db : Db) (nf nf' : Notifier) (req : CreateOrderRequest) (s : Store) (us : List User),
      (createOrder db nf' req { s with users := us }).response =
        (createOrder db nf req s).response ∧
      (createOrder db nf' req { s with users := us }).store =
        { (createOrder db nf req s).store with users := us }) ∧
    (∀ (db : Db) (nf nf' : Notifier) (req : UpdateStatusRequest) (s : Store) (us : List User),
      (updateOrderStatus db nf' req { s with users := us }).response =
        (updateOrderStatus db nf req s).response ∧
      (updateOrderStatus db nf' req { s with users := us }).store =
        { (updateOrderStatus db nf req s).store with users := us }) ∧
    (∀ (db : Db) (nf : Notifier) (req : CreateOrderRequest) (s : Store) (cart : Cart)
        (addr phone name pay : String),
      fieldsPresent req addr phone name pay →
      cartFindUnique db s req.userId = .ok (some cart) →
      cart.items ≠ [] → txSucceeds db →
      ∃ o : Order,
        (createOrder db nf req s).response =
          ⟨201, ⟨true, "Order placed successfully!", some o, none⟩⟩ ∧
        (createOrder db nf req s).store.orders = s.orders ++ [o] ∧
        (createOrder db nf req s).store.orderItems =
          s.orderItems ++ cart.items.map (fun i =>
            ({ orderId := o.id, productId := i.productId, quantity := i.quantity,
               price := i.product.price } : OrderItem)) ∧
        (createOrder db nf req s).store.cartItems =
          s.cartItems.filter (fun i => !decide (i.cartId = cart.id))) := by
  refine ⟨?_, ?_, ?_, ?_⟩
  · intro nf s order items total
    exact ⟨catchAndLog_returns _ _, catchAndLog_returns _ _, catchAndLog_returns _ _,
      catchAndLog_returns _ _⟩
  · intro db nf nf' req s us
    exact ⟨(createOrder_users_irrelevant db nf nf' req s us).1,
      (createOrder_users_irrelevant db nf nf' req s us).2.1⟩
  · intro db nf nf' req s us
    exact ⟨(updateOrderStatus_users_irrelevant db nf nf' req s us).1,
      (updateOrderStatus_users_irrelevant db nf nf' req s us).2.1⟩
  · intro db nf req s cart addr phone name pay hf hc hne htx
    rw [createOrder_commit db nf req s cart addr phone name pay hf hc hne htx]
    exact ⟨_, rfl, rfl, rfl, rfl⟩

/-- Instance of C6: with an unreachable mail server and no user at all, the sample
checkout has the response of the run in which every notification succeeds, and the same
orders, order items and cart items; the failing dispatcher returns normally. -/
theorem notification_outcome_irrelevant_witness :
    (sendNewOrderEmails demoNfSmtpDown demoStore demoOrder demoCart.items demoTotal).1 = .ok () ∧
    (createOrder demoDb demoNfSmtpDown demoReq { demoStore with users := [] }).response =
      (createOrder demoDb demoNf demoReq demoStore).response ∧
    (createOrder demoDb demoNfSmtpDown demoReq { demoStore with users := [] }).store =
      { (createOrder demoDb demoNf demoReq demoStore).store with users := [] } ∧
    (createOrder demoDb demoNfSmtpDown demoReq demoStore).response.status = 201 :=
  ⟨(notification_outcome_irrelevant.1 demoNfSmtpDown demoStore demoOrder demoCart.items
      demoTotal).1,
    (notification_outcome_irrelevant.2.1 demoDb demoNf demoNfSmtpDown demoReq demoStore []).1,
    (notification_outcome_irrelevant.2.1 demoDb demoNf demoNfSmtpDown demoReq demoStore []).2,
    rfl⟩

/-- C9: when the customer exists, the user queries do not fail, and every render and every
transmission succeeds, `sendNewOrderEmails` attempts exactly the customer message, addressed
to the customer's email, followed, exactly when at least one administrator exists, by one
administrator message addressed to all administrator emails joined by commas; with no
administrator only the customer message is sent.  Nothing is logged in either case. -/
theorem sendNewOrderEmails_transmissions (nf : Notifier) (s : Store) (order : Order)
    (items : List CartItem) (total : JsNumber) (customer : User)
    (hq1 : nf.userFindUniqueFault = none) (hq2 : nf.userFindManyFault = none)
    (hcust : s.users.find? (fun u => decide (u.id = order.userId)) = some customer)
    (hrender : ∀ p d, ∃ html, nf.renderFile p d = .ok html)
    (hsend : ∀ m, nf.sendMail m = none) :
    ∃ customerHtml adminHtml,
      nf.renderFile (pathResolve nf.cwd "src/views/customer-order-confirmation.ejs")
        ⟨order, customer, some items, some total⟩ = .ok customerHtml ∧
      nf.renderFile (pathResolve nf.cwd "src/views/admin-new-order.ejs")
        ⟨order, customer, some items, some total⟩ = .ok adminHtml ∧
      (newOrderCustomerMail nf order customer customerHtml).mailTo = customer.email ∧
      (newOrderAdminMail nf order
          ((s.users.filter (fun u => decide (u.role = "ADMIN"))).map (fun a => a.email))
          adminHtml).mailTo =
        String.intercalate ","
          ((s.users.filter (fun u => decide (u.role = "ADMIN"))).map (fun a => a.email)) ∧
      (s.users.filter (fun u => decide (u.role = "ADMIN")) ≠ [] →
        (sendNewOrderEmails nf s order items total).2.mails =
          [newOrderCustomerMail nf order customer customerHtml,
           newOrderAdminMail nf order
            ((s.users.filter (fun u => decide (u.role = "ADMIN"))).map (fun a => a.email))
            adminHtml]) ∧
      (s.users.filter (fun u => decide (u.role = "ADMIN")) = [] →
        (sendNewOrderEmails nf s order items total).2.mails =
          [newOrderCustomerMail nf order customer customerHtml]) ∧
      (sendNewOrderEmails nf s order items total).2.logs = [] := by
  obtain ⟨customerHtml, hc⟩ := hrender
    (pathResolve nf.cwd "src/views/customer-order-confirmation.ejs")
    ⟨order, customer, some items, some total⟩
  obtain ⟨adminHtml, ha⟩ := hrender (pathResolve nf.cwd "src/views/admin-new-order.ejs")
    ⟨order, customer, some items, some total⟩
  refine ⟨customerHtml, adminHtml, hc, ha, rfl, rfl, ?_, ?_, ?_⟩
  · intro hadm
    have hlen : 0 < (s.users.filter (fun u => decide (u.role = "ADMIN"))).length :=
      List.length_pos.mpr hadm
    simp [sendNewOrderEmails, sendNewOrderEmailsBody, catchAndLog, userFindUnique,
      userFindManyAdmins, hq1, hq2, hcust, hc, ha, hsend, hlen]
  · intro hadm
    simp [sendNewOrderEmails, sendNewOrderEmailsBody, catchAndLog, userFindUnique,
      userFindManyAdmins, hq1, hq2, hcust, hc, hsend, hadm]
  · by_cases hadm : s.users.filter (fun u => decide (u.role = "ADMIN")) = []
    · simp [sendNewOrderEmails, sendNewOrderEmailsBody, catchAndLog, userFindUnique,
        userFindManyAdmins, hq1, hq2, hcust, hc, hsend, hadm]
    · have hlen : 0 < (s.users.filter (fun u => decide (u.role = "ADMIN"))).length :=
        List.length_pos.mpr hadm
      simp [sendNewOrderEmails, sendNewOrderEmailsBody, catchAndLog, userFindUnique,
        userFindManyAdmins, hq1, hq2, hcust, hc, ha, hsend, hlen]

/-- Instances of C9: on the sample store (two administrators) the customer message goes to
the customer and one more message goes to both administrators; without administrators
only the customer message is sent. -/
theorem sendNewOrderEmails_transmissions_witness :
    ((sendNewOrderEmails demoNf demoStore demoOrder demoCart.items demoTotal).2.mails.map
        (fun m => m.mailTo) = ["ann@example.com", "root@example.com,ops@example.com"] ∧
      (sendNewOrderEmails demoNf demoStore demoOrder demoCart.items demoTotal).2.logs = []) ∧
    ((sendNewOrderEmails demoNf { demoStore with users := [⟨"u1", "ann@example.com", "USER"⟩] }
        demoOrder demoCart.items demoTotal).2.mails.map (fun m => m.mailTo)
        = ["ann@example.com"] ∧
      (sendNewOrderEmails demoNf { demoStore with users := [⟨"u1", "ann@example.com", "USER"⟩] }
        demoOrder demoCart.items demoTotal).2.logs = []) := by
  obtain ⟨c1, a1, -, -, -, -, h1, -, l1⟩ :=
    sendNewOrderEmails_transmissions demoNf demoStore demoOrder demoCart.items demoTotal
      ⟨"u1", "ann@example.com", "USER"⟩ rfl rfl rfl (fun _ _ => ⟨_, rfl⟩) (fun _ => rfl)
  obtain ⟨c2, a2, -, -, -, -, -, h2, l2⟩ :=
    sendNewOrderEmails_transmissions demoNf
      { demoStore with users := [⟨"u1", "ann@example.com", "USER"⟩] }
      demoOrder demoCart.items demoTotal
      ⟨"u1", "ann@example.com", "USER"⟩ rfl rfl rfl (fun _ _ => ⟨_, rfl⟩) (fun _ => rfl)
  refine ⟨⟨?_, l1⟩, ?_, l2⟩
  · rw [h1 (by decide)]; rfl
  · rw [h2 (by decide)]; rfl

/-- C10: in `sendNewOrderEmails`, when the customer lookup finds no one, or the customer
template fails to render, or the customer transmission fails, no message to the
administrators is attempted, whatever administrators the store holds: the attempts are
none at all in the first two cases and the failed customer message alone in the third,
and the one error is logged. -/
theorem sendNewOrderEmails_admin_needs_customer (nf : Notifier) (s : Store) (order : Order)
    (items : List CartItem) (total : JsNumber)
    (h : userFindUnique nf s order.userId = .ok none ∨
      (∃ customer e, userFindUnique nf s order.userId = .ok (some customer) ∧
        nf.renderFile (pathResolve nf.cwd "src/views/customer-order-confirmation.ejs")
          ⟨order, customer, some items, some total⟩ = .error e) ∨
      (∃ customer customerHtml e, userFindUnique nf s order.userId = .ok (some customer) ∧
        nf.renderFile (pathResolve nf.cwd "src/views/customer-order-confirmation.ejs")
          ⟨order, customer, some items, some total⟩ = .ok customerHtml ∧
        nf.sendMail (newOrderCustomerMail nf order customer customerHtml) = some e)) :
    ((sendNewOrderEmails nf s order items total).2.mails = [] ∨
      ∃ customer customerHtml, (sendNewOrderEmails nf s order items total).2.mails =
        [newOrderCustomerMail nf order customer customerHtml]) ∧
    (∀ adminEmails adminHtml,
      newOrderAdminMail nf order adminEmails adminHtml ∉
        (sendNewOrderEmails nf s order items total).2.mails) ∧
    (∃ e, (sendNewOrderEmails nf s order items total).2.logs =
      [⟨"--- Failed to send new order notification emails ---", e⟩]) := by
  rcases h with h | ⟨customer, e, h, hr⟩ | ⟨customer, customerHtml, e, h, hr, hs⟩
  · simp [sendNewOrderEmails, sendNewOrderEmailsBody, catchAndLog, h]
  · simp [sendNewOrderEmails, sendNewOrderEmailsBody, catchAndLog, h, hr]
  · have hm : (sendNewOrderEmails nf s order items total).2.mails =
        [newOrderCustomerMail nf order customer customerHtml] := by
      simp [sendNewOrderEmails, sendNewOrderEmailsBody, catchAndLog, h, hr, hs]
    have hl : (sendNewOrderEmails nf s order items total).2.logs =
        [⟨"--- Failed to send new order notification emails ---", e⟩] := by
      simp [sendNewOrderEmails, sendNewOrderEmailsBody, catchAndLog, h, hr, hs]
    refine ⟨Or.inr ⟨customer, customerHtml, hm⟩, ?_, e, hl⟩
    intro adminEmails adminHtml hmem
    rw [hm, List.mem_singleton] at hmem
    exact customer_ne_admin_mail nf order customer customerHtml adminEmails adminHtml hmem

/-- Instances of C10 on the sample store, which has two administrators: with the mail
server down only the customer message is attempted; with a failing renderer, or an order
whose owner is not in the user table, nothing is attempted. -/
theorem sendNewOrderEmails_admin_needs_customer_witness :
    (sendNewOrderEmails demoNfSmtpDown demoStore demoOrder demoCart.items demoTotal).2.mails.map
      (fun m => m.mailTo) = ["ann@example.com"] ∧
    (sendNewOrderEmails demoNfRenderDown demoStore demoOrder demoCart.items demoTotal).2.mails
      = [] ∧
    (sendNewOrderEmails demoNf demoStore { demoOrder with userId := "u9" } demoCart.items
      demoTotal).2.mails = [] ∧
    (∀ adminEmails adminHtml,
      newOrderAdminMail demoNfSmtpDown demoOrder adminEmails adminHtml ∉
        (sendNewOrderEmails demoNfSmtpDown demoStore demoOrder demoCart.items demoTotal).2.mails) :=
  ⟨rfl, rfl, rfl,
    (sendNewOrderEmails_admin_needs_customer demoNfSmtpDown demoStore demoOrder demoCart.items
      demoTotal (Or.inr (Or.inr ⟨⟨"u1", "ann@example.com", "USER"⟩, _, _, rfl, rfl, rfl⟩))).2.1⟩

end Joyvinco
